import Mathlib

/-!
Shallow embedding of the oxford-debate-agent pipeline
(src/debate_orchestrator.py, src/audio_generator.py, src/main.py).

External collaborators (the chat model, the TTS backends, the loaded
configuration) are modelled as oracle parameters; dictionary state is
modelled as insertion-ordered association lists, mirroring Python dicts;
Python exceptions are modelled as explicit error values threaded through
the control flow at exactly the program points where the source raises.
-/

namespace OxfordDebate

/-- A parsed Python format string (`str.format` template): literal runs
interleaved with `{key}` replacement fields.  The prompt templates loaded
from `config/prompts.yaml` are such strings. -/
inductive Tok
| lit (s : String)
| hole (k : String)
deriving Repr, DecidableEq

/-- Python `template.format(motion=motion, **context)`: every `{key}` field
is replaced by the `motion` keyword argument or the matching context entry;
an unmatched field raises `KeyError(key)`, modelled as `Except.error key`.
(The context keys are stage names, so they never collide with `motion`.) -/
def formatTemplate (motion : String) (context : List (String × String)) : List Tok → Except String String
| [] => Except.ok ""
| Tok.lit s :: rest => (formatTemplate motion context rest).map (fun r => s ++ r)
| Tok.hole k :: rest =>
    match (if k = "motion" then some motion else context.lookup k) with
    | none => Except.error k
    | some v => (formatTemplate motion context rest).map (fun r => v ++ r)

/-- Errors that `DebateOrchestrator._generate_speech` can raise.
`missingPrompt` is the `KeyError` from `self.prompts['system_prompts'][stage]`
(the spec's `MissingPromptError`); `promptFormatting` is the `KeyError`
raised by `str.format` (the spec's `PromptFormattingError`); `generation`
is a failure of the chat-model invocation (the spec's `GenerationError`). -/
inductive SpeechError
| missingPrompt (stage : String)
| promptFormatting (stage : String) (key : String)
| generation (stage : String)
deriving Repr, DecidableEq

/-- `DebateOrchestrator._generate_speech` (debate_orchestrator.py:130-152):
resolve the stage's prompt template from the prompt mapping, format it with
`motion` plus the context, and invoke the chat model (`self.llm.invoke`,
modelled by the oracle `llm`; `none` models an upstream failure). -/
def generate_speech (prompts : List (String × List Tok)) (llm : String → Option String)
    (motion : String) (stage : String) (context : List (String × String)) : Except SpeechError String :=
  match prompts.lookup stage with
  | none => Except.error (SpeechError.missingPrompt stage)
  | some tpl =>
    match formatTemplate motion context tpl with
    | Except.error k => Except.error (SpeechError.promptFormatting stage k)
    | Except.ok prompt =>
      match llm prompt with
      | none => Except.error (SpeechError.generation stage)
      | some t => Except.ok t

/-- State of a `generate_debate` run: `content` is `self.debate_content`
(insertion-ordered, as a Python dict), `calls` records each
`_generate_speech(stage, context)` invocation in order, and `err` is the
first raised error, if any (a raised exception aborts the remaining
straight-line calls). -/
structure DebateState where
  content : List (String × String)
  calls : List (String × List (String × String))
  err : Option SpeechError
deriving Repr, DecidableEq

/-- Build the context dict passed to `_generate_speech`: each dependency key
is read from `self.debate_content`.  In `generate_debate` every dependency
was stored by an earlier stage before it is read, so the `getD ""` default
is never taken (Python's always-successful dict lookup). -/
def mkCtx (content : List (String × String)) (deps : List String) : List (String × String) :=
  deps.map (fun k => (k, (content.lookup k).getD ""))

/-- One `self.debate_content[stage] = self._generate_speech(stage, ctx)`
statement.  If a previous statement already raised (`err` set), control
never reaches this one; on success the result is stored under `stage`;
on failure the exception propagates, leaving `content` as is. -/
def runStage (prompts : List (String × List Tok)) (llm : String → Option String) (motion : String)
    (st : DebateState) (stage : String) (deps : List String) : DebateState :=
  match st.err with
  | some _ => st
  | none =>
    let ctx := mkCtx st.content deps
    match generate_speech prompts llm motion stage ctx with
    | Except.error e => { content := st.content, calls := st.calls ++ [(stage, ctx)], err := some e }
    | Except.ok t => { content := st.content ++ [(stage, t)], calls := st.calls ++ [(stage, ctx)], err := none }

/-- `DebateOrchestrator.generate_debate` (debate_orchestrator.py:78-128):
the six hand-written sequential `_generate_speech` calls, each storing its
result, with the context dicts exactly as written in the source. -/
def generate_debate (prompts : List (String × List Tok)) (llm : String → Option String)
    (motion : String) : DebateState :=
  let st := DebateState.mk [] [] none
  let st := runStage prompts llm motion st "proposition_opening" []
  let st := runStage prompts llm motion st "opposition_opening" []
  let st := runStage prompts llm motion st "proposition_rebuttal" ["opposition_opening"]
  let st := runStage prompts llm motion st "opposition_rebuttal" ["proposition_opening"]
  let st := runStage prompts llm motion st "proposition_closing"
    ["proposition_opening", "opposition_opening", "proposition_rebuttal", "opposition_rebuttal"]
  let st := runStage prompts llm motion st "opposition_closing"
    ["proposition_opening", "opposition_opening", "proposition_rebuttal", "opposition_rebuttal"]
  st

/-- The six stage keys in text-generation order. -/
def textOrder : List String :=
  ["proposition_opening", "opposition_opening",
   "proposition_rebuttal", "opposition_rebuttal",
   "proposition_closing", "opposition_closing"]

/-- One voice entry of `config['audio']['voices']`: a `voice_id` and an
optional `speed` (read with default `1.0` by `_openai_tts`; the numeric
value only travels into the upstream API call, so it is carried abstractly
as an integer-scaled value). -/
structure VoiceCfg where
  voice_id : String
  speed : Option Int
deriving Repr, DecidableEq

/-- The parts of the loaded configuration mapping that the audio phase
reads: `config['audio']['voices']`, `config['output']['filename_pattern']`
(a format string; `pattern.format(order=o, side=s, stage=st)` is modelled
as applying the function `filename_pat` to `(o, s, st)`), and
`config['output']['metadata']['include_transcript']`. -/
structure Config where
  voices : List (String × VoiceCfg)
  filename_pat : Nat → String → String → String
  include_transcript : Bool

/-- The process environment read by `AudioGenerator.__init__`:
`TTS_PROVIDER` (`os.getenv`, default `'openai'`), whether `OpenAI()` can be
constructed (its constructor raises when no API key is configured), and
whether the `elevenlabs` package is importable. -/
structure Env where
  tts_provider : Option String
  openai_ok : Bool
  elevenlabs_sdk : Bool
deriving Repr, DecidableEq

/-- Construction-time failures of `AudioGenerator.__init__`
(audio_generator.py:17-35): `OpenAI()` raising for missing credentials, or
the `ImportError` re-raised when the ElevenLabs SDK is not installed.
Both are the spec's `ConfigurationError`. -/
inductive InitError
| openaiCredentials
| elevenlabsSdkMissing
deriving Repr, DecidableEq

/-- The constructed `AudioGenerator`: it retains the config and the
provider name chosen at construction. -/
structure AudioGenerator where
  config : Config
  tts_provider : String

/-- `AudioGenerator.__init__` (audio_generator.py:17-35).  Note the source
has no `else` branch: a provider name other than `'openai'` and
`'elevenlabs'` passes construction without any check. -/
def AudioGenerator.init (cfg : Config) (env : Env) : Except InitError AudioGenerator :=
  let provider := env.tts_provider.getD "openai"
  if provider = "openai" then
    if env.openai_ok then Except.ok ⟨cfg, provider⟩
    else Except.error InitError.openaiCredentials
  else if provider = "elevenlabs" then
    if env.elevenlabs_sdk then Except.ok ⟨cfg, provider⟩
    else Except.error InitError.elevenlabsSdkMissing
  else Except.ok ⟨cfg, provider⟩

/-- Failures of `AudioGenerator.text_to_speech` and its backends.
`unknownVoice` is the `KeyError` from `config['audio']['voices'][voice]`
(the spec's `ConfigurationError` for an unknown voice); `unsupported` is
the `ValueError("Unsupported TTS provider: ...")`; `synthesis` is an
upstream TTS API failure (the spec's `SynthesisError`). -/
inductive TTSError
| unknownVoice (voice : String)
| unsupported (provider : String)
| synthesis
deriving Repr, DecidableEq

/-- Observable file-system writes of the audio phase. -/
inductive FileEffect
| audio (path : String)
| transcript (path : String) (content : String)
deriving Repr, DecidableEq

/-- `AudioGenerator._openai_tts` (audio_generator.py:61-80): look up the
voice configuration (`KeyError` for an unknown voice happens before any
API call or file write), read `speed` with default, call the TTS API
(modelled by the oracle `synthOk` on (text, voice_id); a `False` result
models the call raising), then stream the response to `output_path`. -/
def openai_tts (voices : List (String × VoiceCfg)) (synthOk : String → String → Bool)
    (text output_path voice : String) : Except TTSError String × List FileEffect :=
  match voices.lookup voice with
  | none => (Except.error (TTSError.unknownVoice voice), [])
  | some vc =>
    let _speed := vc.speed.getD 1
    if synthOk text vc.voice_id then (Except.ok output_path, [FileEffect.audio output_path])
    else (Except.error TTSError.synthesis, [])

/-- `AudioGenerator._elevenlabs_tts` (audio_generator.py:82-100): same
voice lookup, then `elevenlabs.generate` (oracle) and a binary write. -/
def elevenlabs_tts (voices : List (String × VoiceCfg)) (synthOk : String → String → Bool)
    (text output_path voice : String) : Except TTSError String × List FileEffect :=
  match voices.lookup voice with
  | none => (Except.error (TTSError.unknownVoice voice), [])
  | some vc =>
    if synthOk text vc.voice_id then (Except.ok output_path, [FileEffect.audio output_path])
    else (Except.error TTSError.synthesis, [])

/-- `AudioGenerator.text_to_speech` (audio_generator.py:37-59): dispatch on
the provider chosen at construction; any other provider raises
`ValueError` here, on the first synthesis call. -/
def text_to_speech (g : AudioGenerator) (synthOk : String → String → Bool)
    (text output_path voice : String) : Except TTSError String × List FileEffect :=
  if g.tts_provider = "openai" then openai_tts g.config.voices synthOk text output_path voice
  else if g.tts_provider = "elevenlabs" then elevenlabs_tts g.config.voices synthOk text output_path voice
  else (Except.error (TTSError.unsupported g.tts_provider), [])

/-- `AudioGenerator.normalize_audio` (audio_generator.py:102-129): when
`pydub` imports, load / normalize / re-export over the same path (the
processing modelled by the oracle `process`; `none` models a processing
exception, which the source does not catch); when the import fails, the
`except ImportError` branch returns the input path with no effect. -/
def normalize_audio (pydub_available : Bool) (process : String → Option String)
    (audio_path : String) : Except String (String × List FileEffect) :=
  if pydub_available then
    match process audio_path with
    | some _ => Except.ok (audio_path, [FileEffect.audio audio_path])
    | none => Except.error "audio processing failed"
  else
    Except.ok (audio_path, [])

/-- Index of the last occurrence of `c` in `cs`. -/
def lastIdxOf (c : Char) (cs : List Char) : Option Nat :=
  ((List.range cs.length).filter (fun i => cs[i]? = some c)).getLast?

/-- The pathlib stem computation underlying `Path.with_suffix`: drop the
final component's suffix (text from its last `.`, provided that dot is
neither the leading character of the name nor its last character). -/
def py_drop_suffix (path : String) : String :=
  let cs := path.toList
  let nameStart := match lastIdxOf '/' cs with
    | some i => i + 1
    | none => 0
  let name := cs.drop nameStart
  match lastIdxOf '.' name with
  | some i =>
    if 0 < i ∧ i < name.length - 1 then ((cs.take nameStart) ++ name.take i).asString
    else path
  | none => path

/-- `output_path.with_suffix('.txt')` (debate_orchestrator.py:202): the
audio path with its final suffix replaced by `.txt` — the sibling file
with the same stem. -/
def py_with_suffix_txt (path : String) : String :=
  py_drop_suffix path ++ ".txt"

/-- Python `str.upper` (kernel-evaluable, exact on the ASCII side and
phase labels it is applied to). -/
def py_upper (s : String) : String := (s.toList.map Char.toUpper).asString

/-- The transcript file contents written at debate_orchestrator.py:203-206.
The separator is the two-character text `\n` (the source f-strings contain
the escaped sequence `\\n`, a literal backslash-n, not a newline). -/
def transcript_text (side stage_name motion text : String) : String :=
  "# " ++ py_upper side ++ " - " ++ py_upper stage_name ++ "\\n\\n" ++
  "Motion: " ++ motion ++ "\\n\\n" ++ text

/-- Errors of `DebateOrchestrator.generate_audio`: a propagated
`AudioGenerator.__init__` failure, the `KeyError` from
`debate_content[stage]` (the spec's `MissingContentError`), or a
propagated `text_to_speech` failure. -/
inductive AudioError
| config (e : InitError)
| missingContent (stage : String)
| tts (e : TTSError)
deriving Repr, DecidableEq

/-- State of a `generate_audio` run: the `audio_files` accumulator, the
file-system writes in order, and the first raised error, if any. -/
structure AudioRun where
  files : List String
  effects : List FileEffect
  err : Option AudioError
deriving Repr, DecidableEq

/-- The `speech_order` list (debate_orchestrator.py:171-178):
(stage, side, stage_name, order). -/
def speech_order : List (String × String × String × Nat) :=
  [("proposition_opening", "proposition", "opening", 1),
   ("opposition_opening", "opposition", "opening", 2),
   ("proposition_rebuttal", "proposition", "rebuttal", 3),
   ("opposition_rebuttal", "opposition", "rebuttal", 4),
   ("proposition_closing", "proposition", "closing", 5),
   ("opposition_closing", "opposition", "closing", 6)]

/-- The output path of one speech: `output_dir / filename` where the
filename comes from substituting `(order, side, stage)` into the
configured pattern (debate_orchestrator.py:184-189). -/
def audioPath (cfg : Config) (output_dir : String) (order : Nat) (side stage_name : String) : String :=
  output_dir ++ "/" ++ cfg.filename_pat order side stage_name

/-- One iteration of the `for stage, side, stage_name, order in speech_order`
loop (debate_orchestrator.py:180-206): look up the stage's text
(`KeyError` if missing), build the filename from the configured pattern,
synthesize to `output_dir / filename`, append the path, and optionally
write the transcript.  A raised exception aborts the remaining
iterations. -/
def audioStep (cfg : Config) (g : AudioGenerator) (synthOk : String → String → Bool)
    (motion output_dir : String) (content : List (String × String))
    (st : AudioRun) (entry : String × String × String × Nat) : AudioRun :=
  match st.err with
  | some _ => st
  | none =>
    let (stage, side, stage_name, order) := entry
    match content.lookup stage with
    | none => { st with err := some (AudioError.missingContent stage) }
    | some text =>
      let output_path := audioPath cfg output_dir order side stage_name
      match text_to_speech g synthOk text output_path side with
      | (Except.error e, eff) =>
        { st with effects := st.effects ++ eff, err := some (AudioError.tts e) }
      | (Except.ok _, eff) =>
        let st := { st with files := st.files ++ [output_path], effects := st.effects ++ eff }
        if cfg.include_transcript then
          { st with effects := st.effects ++
              [FileEffect.transcript (py_with_suffix_txt output_path)
                (transcript_text side stage_name motion text)] }
        else st

/-- `DebateOrchestrator.generate_audio` (debate_orchestrator.py:154-208):
construct the `AudioGenerator` (a constructor failure propagates before
any iteration), then run the loop over `speech_order`. -/
def generate_audio (cfg : Config) (env : Env) (synthOk : String → String → Bool)
    (motion output_dir : String) (content : List (String × String)) : AudioRun :=
  match AudioGenerator.init cfg env with
  | Except.error e => AudioRun.mk [] [] (some (AudioError.config e))
  | Except.ok g => speech_order.foldl (audioStep cfg g synthOk motion output_dir content) (AudioRun.mk [] [] none)

/-- The `generate` command flow of main.py:97-107: `generate_debate` first;
if it raises, the run exits before `generate_audio` is ever called (second
component `none` = no audio phase); otherwise `generate_audio` runs on the
returned content. -/
def run_pipeline (prompts : List (String × List Tok)) (llm : String → Option String)
    (motion : String) (cfg : Config) (env : Env) (synthOk : String → String → Bool)
    (output_dir : String) : DebateState × Option AudioRun :=
  let run := generate_debate prompts llm motion
  match run.err with
  | some _ => (run, none)
  | none => (run, some (generate_audio cfg env synthOk motion output_dir run.content))

/-- The stage keys of `speech_order`, in loop order. -/
def speechStages : List String := speech_order.map (fun e => e.1)

/-! ### Concrete instances used by the witnesses -/

/-- A complete prompt mapping: every stage has a template. -/
def prompts0 : List (String × List Tok) :=
  textOrder.map (fun s => (s, [Tok.lit "Debate the motion."]))

/-- A chat-model oracle that always succeeds with non-empty text. -/
def llm0 : String → Option String := fun _ => some "generated speech"

/-- A prompt mapping lacking the key `opposition_closing`
(the spec's missing-template scenario). -/
def prompts_missing : List (String × List Tok) :=
  [("proposition_opening", [Tok.lit "Open the case."]),
   ("opposition_opening", [Tok.lit "Open the case."]),
   ("proposition_rebuttal", [Tok.lit "Rebut."]),
   ("opposition_rebuttal", [Tok.lit "Rebut."]),
   ("proposition_closing", [Tok.lit "Close."])]

/-- A concrete configuration: both sides have voices, transcripts on. -/
def cfg0 : Config :=
  { voices := [("proposition", ⟨"onyx", some 1⟩), ("opposition", ⟨"echo", none⟩)],
    filename_pat := fun o s st => toString o ++ "_" ++ s ++ "_" ++ st ++ ".mp3",
    include_transcript := true }

/-- An environment selecting the default OpenAI backend with credentials. -/
def env0 : Env := { tts_provider := none, openai_ok := true, elevenlabs_sdk := false }

/-- The generator `AudioGenerator.init cfg0 env0` constructs. -/
def g0 : AudioGenerator := { config := cfg0, tts_provider := "openai" }

/-- A TTS API oracle that always succeeds. -/
def synth_ok0 : String → String → Bool := fun _ _ => true

/-- A complete debate-content mapping. -/
def content0 : List (String × String) :=
  [("proposition_opening", "po text"), ("opposition_opening", "oo text"),
   ("proposition_rebuttal", "pr text"), ("opposition_rebuttal", "orb text"),
   ("proposition_closing", "pc text"), ("opposition_closing", "oc text")]

/-- A second complete debate-content mapping with different texts. -/
def content1 : List (String × String) :=
  [("proposition_opening", "A"), ("opposition_opening", "B"),
   ("proposition_rebuttal", "C"), ("opposition_rebuttal", "D"),
   ("proposition_closing", "E"), ("opposition_closing", "F")]

/-- An environment selecting an unsupported backend name. -/
def envUnknown : Env :=
  { tts_provider := some "speechify", openai_ok := false, elevenlabs_sdk := false }

/-! ### Helper lemmas about `generate_debate` -/

/-- A raised exception skips the remaining straight-line statements. -/
lemma runStage_skip (prompts : List (String × List Tok)) (llm : String → Option String)
    (motion : String) (st : DebateState) (stage : String) (deps : List String)
    (e : SpeechError) (h : st.err = some e) :
    runStage prompts llm motion st stage deps = st := by
  simp [runStage, h]

/-- Anatomy of a fully successful `generate_debate` run: the six texts in
insertion order, the six `_generate_speech` calls in order with the exact
context dicts the source builds, and the equation each text satisfies. -/
lemma generate_debate_success (prompts : List (String × List Tok)) (llm : String → Option String)
    (motion : String) (h : (generate_debate prompts llm motion).err = none) :
    ∃ t1 t2 t3 t4 t5 t6,
      generate_debate prompts llm motion =
        ⟨[("proposition_opening", t1), ("opposition_opening", t2),
          ("proposition_rebuttal", t3), ("opposition_rebuttal", t4),
          ("proposition_closing", t5), ("opposition_closing", t6)],
         [("proposition_opening", []), ("opposition_opening", []),
          ("proposition_rebuttal", [("opposition_opening", t2)]),
          ("opposition_rebuttal", [("proposition_opening", t1)]),
          ("proposition_closing",
            [("proposition_opening", t1), ("opposition_opening", t2),
             ("proposition_rebuttal", t3), ("opposition_rebuttal", t4)]),
          ("opposition_closing",
            [("proposition_opening", t1), ("opposition_opening", t2),
             ("proposition_rebuttal", t3), ("opposition_rebuttal", t4)])],
         none⟩ ∧
      generate_speech prompts llm motion "proposition_opening" [] = Except.ok t1 ∧
      generate_speech prompts llm motion "opposition_opening" [] = Except.ok t2 ∧
      generate_speech prompts llm motion "proposition_rebuttal"
        [("opposition_opening", t2)] = Except.ok t3 ∧
      generate_speech prompts llm motion "opposition_rebuttal"
        [("proposition_opening", t1)] = Except.ok t4 ∧
      generate_speech prompts llm motion "proposition_closing"
        [("proposition_opening", t1), ("opposition_opening", t2),
         ("proposition_rebuttal", t3), ("opposition_rebuttal", t4)] = Except.ok t5 ∧
      generate_speech prompts llm motion "opposition_closing"
        [("proposition_opening", t1), ("opposition_opening", t2),
         ("proposition_rebuttal", t3), ("opposition_rebuttal", t4)] = Except.ok t6 := by
  rcases h1 : generate_speech prompts llm motion "proposition_opening" [] with e1 | t1
  · exfalso
    have hgd : generate_debate prompts llm motion =
        ⟨[], [("proposition_opening", [])], some e1⟩ := by
      simp [generate_debate, runStage, mkCtx, h1]
    rw [hgd] at h
    simp at h
  rcases h2 : generate_speech prompts llm motion "opposition_opening" [] with e2 | t2
  · exfalso
    have hgd : generate_debate prompts llm motion =
        ⟨[("proposition_opening", t1)],
         [("proposition_opening", []), ("opposition_opening", [])], some e2⟩ := by
      simp [generate_debate, runStage, mkCtx, h1, h2]
    rw [hgd] at h
    simp at h
  rcases h3 : generate_speech prompts llm motion "proposition_rebuttal"
      [("opposition_opening", t2)] with e3 | t3
  · exfalso
    have hgd : (generate_debate prompts llm motion).err = some e3 := by
      simp [generate_debate, runStage, mkCtx, List.lookup, h1, h2, h3]
    rw [hgd] at h
    simp at h
  rcases h4 : generate_speech prompts llm motion "opposition_rebuttal"
      [("proposition_opening", t1)] with e4 | t4
  · exfalso
    have hgd : (generate_debate prompts llm motion).err = some e4 := by
      simp [generate_debate, runStage, mkCtx, List.lookup, h1, h2, h3, h4]
    rw [hgd] at h
    simp at h
  rcases h5 : generate_speech prompts llm motion "proposition_closing"
      [("proposition_opening", t1), ("opposition_opening", t2),
       ("proposition_rebuttal", t3), ("opposition_rebuttal", t4)] with e5 | t5
  · exfalso
    have hgd : (generate_debate prompts llm motion).err = some e5 := by
      simp [generate_debate, runStage, mkCtx, List.lookup, h1, h2, h3, h4, h5]
    rw [hgd] at h
    simp at h
  rcases h6 : generate_speech prompts llm motion "opposition_closing"
      [("proposition_opening", t1), ("opposition_opening", t2),
       ("proposition_rebuttal", t3), ("opposition_rebuttal", t4)] with e6 | t6
  · exfalso
    have hgd : (generate_debate prompts llm motion).err = some e6 := by
      simp [generate_debate, runStage, mkCtx, List.lookup, h1, h2, h3, h4, h5, h6]
    rw [hgd] at h
    simp at h
  refine ⟨t1, t2, t3, t4, t5, t6, ?_, rfl, rfl, h3, h4, h5, h6⟩
  simp [generate_debate, runStage, mkCtx, List.lookup, h1, h2, h3, h4, h5, h6]

/-- A speech returned by `_generate_speech` is exactly what the chat model
returned for the formatted prompt. -/
lemma generate_speech_ok_llm {prompts : List (String × List Tok)} {llm : String → Option String}
    {motion stage : String} {ctx : List (String × String)} {t : String}
    (hp : generate_speech prompts llm motion stage ctx = Except.ok t) :
    ∃ p, llm p = some t := by
  unfold generate_speech at hp
  split at hp
  · simp at hp
  · split at hp
    · simp at hp
    · split at hp
      · simp at hp
      · rename_i a1 tpl hlk a2 prompt hfmt a3 tp h3
        simp only [Except.ok.injEq] at hp
        exact ⟨prompt, by rw [h3, hp]⟩

/-! ### C1 and C2 -/

/-- C1: for every valid (non-empty) motion, when every text-generation call
succeeds (run raises no error, and the chat model only ever returns
non-empty text — the spec's notion of a successful generation call),
`generate_debate` returns a mapping whose keys are exactly the six fixed
stage keys, each mapped to non-empty text. -/
theorem generate_debate_six_stage_keys (prompts : List (String × List Tok))
    (llm : String → Option String) (motion : String)
    (_hm : motion ≠ "")
    (hllm : ∀ p t, llm p = some t → t ≠ "")
    (h : (generate_debate prompts llm motion).err = none) :
    (generate_debate prompts llm motion).content.map Prod.fst = textOrder ∧
    ∀ pr ∈ (generate_debate prompts llm motion).content, pr.2 ≠ "" := by
  obtain ⟨t1, t2, t3, t4, t5, t6, heq, e1, e2, e3, e4, e5, e6⟩ :=
    generate_debate_success prompts llm motion h
  have n1 : t1 ≠ "" := by obtain ⟨p, hp⟩ := generate_speech_ok_llm e1; exact hllm p t1 hp
  have n2 : t2 ≠ "" := by obtain ⟨p, hp⟩ := generate_speech_ok_llm e2; exact hllm p t2 hp
  have n3 : t3 ≠ "" := by obtain ⟨p, hp⟩ := generate_speech_ok_llm e3; exact hllm p t3 hp
  have n4 : t4 ≠ "" := by obtain ⟨p, hp⟩ := generate_speech_ok_llm e4; exact hllm p t4 hp
  have n5 : t5 ≠ "" := by obtain ⟨p, hp⟩ := generate_speech_ok_llm e5; exact hllm p t5 hp
  have n6 : t6 ≠ "" := by obtain ⟨p, hp⟩ := generate_speech_ok_llm e6; exact hllm p t6 hp
  constructor
  · rw [heq]; rfl
  · intro pr hpr
    rw [heq] at hpr
    simp only [List.mem_cons, List.not_mem_nil, or_false] at hpr
    rcases hpr with rfl | rfl | rfl | rfl | rfl | rfl <;>
      first | exact n1 | exact n2 | exact n3 | exact n4 | exact n5 | exact n6

/-- C1 witness: concrete happy-path run. -/
theorem generate_debate_six_stage_keys_witness :
    (generate_debate prompts0 llm0 "AI will do more good than harm").content.map Prod.fst = textOrder ∧
    ∀ pr ∈ (generate_debate prompts0 llm0 "AI will do more good than harm").content, pr.2 ≠ "" :=
  generate_debate_six_stage_keys prompts0 llm0 "AI will do more good than harm"
    (by decide)
    (by intro p t hp; simp only [llm0, Option.some.injEq] at hp; subst hp; decide)
    (by decide)

/-- C2: a successful `generate_debate` run makes its six `_generate_speech`
calls in the fixed order (openings, then rebuttals, then closings,
proposition before opposition each time), and the context passed for each
stage is exactly its declared dependencies with the stored texts verbatim:
openings get no prior speeches, each rebuttal gets exactly the opposite
side's stored opening, each closing gets all four prior stored speeches. -/
theorem generate_debate_order_and_contexts (prompts : List (String × List Tok))
    (llm : String → Option String) (motion : String)
    (h : (generate_debate prompts llm motion).err = none) :
    ∃ t1 t2 t3 t4 t5 t6,
      (generate_debate prompts llm motion).content =
        [("proposition_opening", t1), ("opposition_opening", t2),
         ("proposition_rebuttal", t3), ("opposition_rebuttal", t4),
         ("proposition_closing", t5), ("opposition_closing", t6)] ∧
      (generate_debate prompts llm motion).calls =
        [("proposition_opening", []), ("opposition_opening", []),
         ("proposition_rebuttal", [("opposition_opening", t2)]),
         ("opposition_rebuttal", [("proposition_opening", t1)]),
         ("proposition_closing",
           [("proposition_opening", t1), ("opposition_opening", t2),
            ("proposition_rebuttal", t3), ("opposition_rebuttal", t4)]),
         ("opposition_closing",
           [("proposition_opening", t1), ("opposition_opening", t2),
            ("proposition_rebuttal", t3), ("opposition_rebuttal", t4)])] := by
  obtain ⟨t1, t2, t3, t4, t5, t6, heq, -, -, -, -, -, -⟩ :=
    generate_debate_success prompts llm motion h
  exact ⟨t1, t2, t3, t4, t5, t6, by rw [heq], by rw [heq]⟩

/-- C2 witness: the trace of the concrete happy-path run. -/
theorem generate_debate_order_and_contexts_witness :
    ∃ t1 t2 t3 t4 t5 t6,
      (generate_debate prompts0 llm0 "m").content =
        [("proposition_opening", t1), ("opposition_opening", t2),
         ("proposition_rebuttal", t3), ("opposition_rebuttal", t4),
         ("proposition_closing", t5), ("opposition_closing", t6)] ∧
      (generate_debate prompts0 llm0 "m").calls =
        [("proposition_opening", []), ("opposition_opening", []),
         ("proposition_rebuttal", [("opposition_opening", t2)]),
         ("opposition_rebuttal", [("proposition_opening", t1)]),
         ("proposition_closing",
           [("proposition_opening", t1), ("opposition_opening", t2),
            ("proposition_rebuttal", t3), ("opposition_rebuttal", t4)]),
         ("opposition_closing",
           [("proposition_opening", t1), ("opposition_opening", t2),
            ("proposition_rebuttal", t3), ("opposition_rebuttal", t4)])] :=
  generate_debate_order_and_contexts prompts0 llm0 "m" (by decide)

/-! ### Helper lemmas about the audio phase -/

/-- A successful `_openai_tts` call returns the output path and writes
exactly the audio file there. -/
lemma openai_tts_ok_shape {voices : List (String × VoiceCfg)} {synthOk : String → String → Bool}
    {t p v r : String} (h : (openai_tts voices synthOk t p v).1 = Except.ok r) :
    openai_tts voices synthOk t p v = (Except.ok p, [FileEffect.audio p]) := by
  rcases hv : voices.lookup v with _ | vc <;>
    simp only [openai_tts, hv] at h ⊢
  · simp at h
  · cases hs : synthOk t vc.voice_id <;> simp [hs] at h ⊢

/-- A successful `_elevenlabs_tts` call returns the output path and writes
exactly the audio file there. -/
lemma elevenlabs_tts_ok_shape {voices : List (String × VoiceCfg)} {synthOk : String → String → Bool}
    {t p v r : String} (h : (elevenlabs_tts voices synthOk t p v).1 = Except.ok r) :
    elevenlabs_tts voices synthOk t p v = (Except.ok p, [FileEffect.audio p]) := by
  rcases hv : voices.lookup v with _ | vc <;>
    simp only [elevenlabs_tts, hv] at h ⊢
  · simp at h
  · cases hs : synthOk t vc.voice_id <;> simp [hs] at h ⊢

/-- A successful `text_to_speech` call returns the output path and writes
exactly the audio file there, whichever backend is selected. -/
lemma tts_ok_shape {g : AudioGenerator} {synthOk : String → String → Bool}
    {t p v r : String} (h : (text_to_speech g synthOk t p v).1 = Except.ok r) :
    text_to_speech g synthOk t p v = (Except.ok p, [FileEffect.audio p]) := by
  by_cases h1 : g.tts_provider = "openai"
  · simp only [text_to_speech, h1, if_true] at h ⊢
    exact openai_tts_ok_shape h
  · by_cases h2 : g.tts_provider = "elevenlabs"
    · simp only [text_to_speech, h1, h2, if_false, if_true] at h ⊢
      exact elevenlabs_tts_ok_shape h
    · simp [text_to_speech, h1, h2] at h

/-- Anatomy of a `generate_audio` run over complete content with a working
provider: no error, the six output paths in presentational order 1..6, and
the file writes (audio, plus a transcript when configured) in loop
order. -/
lemma generate_audio_complete (cfg : Config) (env : Env) (synthOk : String → String → Bool)
    (motion output_dir : String) (content : List (String × String)) (g : AudioGenerator)
    (x1 x2 x3 x4 x5 x6 : String)
    (hinit : AudioGenerator.init cfg env = Except.ok g)
    (hsP : ∀ t p, (text_to_speech g synthOk t p "proposition").1 = Except.ok p)
    (hsO : ∀ t p, (text_to_speech g synthOk t p "opposition").1 = Except.ok p)
    (c1 : content.lookup "proposition_opening" = some x1)
    (c2 : content.lookup "opposition_opening" = some x2)
    (c3 : content.lookup "proposition_rebuttal" = some x3)
    (c4 : content.lookup "opposition_rebuttal" = some x4)
    (c5 : content.lookup "proposition_closing" = some x5)
    (c6 : content.lookup "opposition_closing" = some x6) :
    generate_audio cfg env synthOk motion output_dir content =
      { files :=
          [audioPath cfg output_dir 1 "proposition" "opening",
           audioPath cfg output_dir 2 "opposition" "opening",
           audioPath cfg output_dir 3 "proposition" "rebuttal",
           audioPath cfg output_dir 4 "opposition" "rebuttal",
           audioPath cfg output_dir 5 "proposition" "closing",
           audioPath cfg output_dir 6 "opposition" "closing"],
        effects :=
          ([FileEffect.audio (audioPath cfg output_dir 1 "proposition" "opening")] ++
            (if cfg.include_transcript then
              [FileEffect.transcript (py_with_suffix_txt (audioPath cfg output_dir 1 "proposition" "opening"))
                (transcript_text "proposition" "opening" motion x1)] else [])) ++
          ([FileEffect.audio (audioPath cfg output_dir 2 "opposition" "opening")] ++
            (if cfg.include_transcript then
              [FileEffect.transcript (py_with_suffix_txt (audioPath cfg output_dir 2 "opposition" "opening"))
                (transcript_text "opposition" "opening" motion x2)] else [])) ++
          ([FileEffect.audio (audioPath cfg output_dir 3 "proposition" "rebuttal")] ++
            (if cfg.include_transcript then
              [FileEffect.transcript (py_with_suffix_txt (audioPath cfg output_dir 3 "proposition" "rebuttal"))
                (transcript_text "proposition" "rebuttal" motion x3)] else [])) ++
          ([FileEffect.audio (audioPath cfg output_dir 4 "opposition" "rebuttal")] ++
            (if cfg.include_transcript then
              [FileEffect.transcript (py_with_suffix_txt (audioPath cfg output_dir 4 "opposition" "rebuttal"))
                (transcript_text "opposition" "rebuttal" motion x4)] else [])) ++
          ([FileEffect.audio (audioPath cfg output_dir 5 "proposition" "closing")] ++
            (if cfg.include_transcript then
              [FileEffect.transcript (py_with_suffix_txt (audioPath cfg output_dir 5 "proposition" "closing"))
                (transcript_text "proposition" "closing" motion x5)] else [])) ++
          ([FileEffect.audio (audioPath cfg output_dir 6 "opposition" "closing")] ++
            (if cfg.include_transcript then
              [FileEffect.transcript (py_with_suffix_txt (audioPath cfg output_dir 6 "opposition" "closing"))
                (transcript_text "opposition" "closing" motion x6)] else [])),
        err := none } := by
  have eP : ∀ t p, text_to_speech g synthOk t p "proposition" = (Except.ok p, [FileEffect.audio p]) :=
    fun t p => tts_ok_shape (hsP t p)
  have eO : ∀ t p, text_to_speech g synthOk t p "opposition" = (Except.ok p, [FileEffect.audio p]) :=
    fun t p => tts_ok_shape (hsO t p)
  cases hic : cfg.include_transcript <;>
    simp [generate_audio, hinit, speech_order, audioStep, c1, c2, c3, c4, c5, c6, eP, eO, hic]

/-! ### C3, C9, C10 -/

/-- C3: over a content mapping containing all six stages, with a working
provider (construction succeeds and every synthesis call returns its output
path), `generate_audio` raises no error and returns exactly six artifact
paths, obtained by substituting sequence numbers 1..6 with the fixed
(side, phase-label) pairs into the configured filename pattern, in that
presentational order. -/
theorem generate_audio_six_paths_in_order (cfg : Config) (env : Env)
    (synthOk : String → String → Bool) (motion output_dir : String)
    (content : List (String × String)) (g : AudioGenerator)
    (hinit : AudioGenerator.init cfg env = Except.ok g)
    (hsP : ∀ t p, (text_to_speech g synthOk t p "proposition").1 = Except.ok p)
    (hsO : ∀ t p, (text_to_speech g synthOk t p "opposition").1 = Except.ok p)
    (hc : ∀ s ∈ speechStages, (content.lookup s).isSome) :
    (generate_audio cfg env synthOk motion output_dir content).err = none ∧
    (generate_audio cfg env synthOk motion output_dir content).files =
      [audioPath cfg output_dir 1 "proposition" "opening",
       audioPath cfg output_dir 2 "opposition" "opening",
       audioPath cfg output_dir 3 "proposition" "rebuttal",
       audioPath cfg output_dir 4 "opposition" "rebuttal",
       audioPath cfg output_dir 5 "proposition" "closing",
       audioPath cfg output_dir 6 "opposition" "closing"] := by
  obtain ⟨x1, c1⟩ := Option.isSome_iff_exists.mp (hc "proposition_opening" (by decide))
  obtain ⟨x2, c2⟩ := Option.isSome_iff_exists.mp (hc "opposition_opening" (by decide))
  obtain ⟨x3, c3⟩ := Option.isSome_iff_exists.mp (hc "proposition_rebuttal" (by decide))
  obtain ⟨x4, c4⟩ := Option.isSome_iff_exists.mp (hc "opposition_rebuttal" (by decide))
  obtain ⟨x5, c5⟩ := Option.isSome_iff_exists.mp (hc "proposition_closing" (by decide))
  obtain ⟨x6, c6⟩ := Option.isSome_iff_exists.mp (hc "opposition_closing" (by decide))
  rw [generate_audio_complete cfg env synthOk motion output_dir content g
    x1 x2 x3 x4 x5 x6 hinit hsP hsO c1 c2 c3 c4 c5 c6]
  exact ⟨rfl, rfl⟩

/-- C3 witness: concrete complete run. -/
theorem generate_audio_six_paths_in_order_witness :
    (generate_audio cfg0 env0 synth_ok0 "m" "out" content0).err = none ∧
    (generate_audio cfg0 env0 synth_ok0 "m" "out" content0).files =
      [audioPath cfg0 "out" 1 "proposition" "opening",
       audioPath cfg0 "out" 2 "opposition" "opening",
       audioPath cfg0 "out" 3 "proposition" "rebuttal",
       audioPath cfg0 "out" 4 "opposition" "rebuttal",
       audioPath cfg0 "out" 5 "proposition" "closing",
       audioPath cfg0 "out" 6 "opposition" "closing"] :=
  generate_audio_six_paths_in_order cfg0 env0 synth_ok0 "m" "out" content0 g0
    rfl (fun _ _ => rfl) (fun _ _ => rfl) (by decide)

/-- C9: when transcripts are configured on, the run writes, for each of the
six stages in order, the audio file and then a sibling text file (same stem,
`.txt` extension) whose content is the upper-case side/phase header,
the motion, and the full speech text of that stage.  (The separator between
those parts is the literal two-character text `\n`, as written in the
source's escaped f-strings.) -/
theorem generate_audio_transcripts (cfg : Config) (env : Env)
    (synthOk : String → String → Bool) (motion output_dir : String)
    (content : List (String × String)) (g : AudioGenerator)
    (x1 x2 x3 x4 x5 x6 : String)
    (hinit : AudioGenerator.init cfg env = Except.ok g)
    (hsP : ∀ t p, (text_to_speech g synthOk t p "proposition").1 = Except.ok p)
    (hsO : ∀ t p, (text_to_speech g synthOk t p "opposition").1 = Except.ok p)
    (c1 : content.lookup "proposition_opening" = some x1)
    (c2 : content.lookup "opposition_opening" = some x2)
    (c3 : content.lookup "proposition_rebuttal" = some x3)
    (c4 : content.lookup "opposition_rebuttal" = some x4)
    (c5 : content.lookup "proposition_closing" = some x5)
    (c6 : content.lookup "opposition_closing" = some x6)
    (hic : cfg.include_transcript = true) :
    (generate_audio cfg env synthOk motion output_dir content).effects =
      [FileEffect.audio (audioPath cfg output_dir 1 "proposition" "opening"),
       FileEffect.transcript (py_drop_suffix (audioPath cfg output_dir 1 "proposition" "opening") ++ ".txt")
         ("# PROPOSITION - OPENING\\n\\nMotion: " ++ motion ++ "\\n\\n" ++ x1),
       FileEffect.audio (audioPath cfg output_dir 2 "opposition" "opening"),
       FileEffect.transcript (py_drop_suffix (audioPath cfg output_dir 2 "opposition" "opening") ++ ".txt")
         ("# OPPOSITION - OPENING\\n\\nMotion: " ++ motion ++ "\\n\\n" ++ x2),
       FileEffect.audio (audioPath cfg output_dir 3 "proposition" "rebuttal"),
       FileEffect.transcript (py_drop_suffix (audioPath cfg output_dir 3 "proposition" "rebuttal") ++ ".txt")
         ("# PROPOSITION - REBUTTAL\\n\\nMotion: " ++ motion ++ "\\n\\n" ++ x3),
       FileEffect.audio (audioPath cfg output_dir 4 "opposition" "rebuttal"),
       FileEffect.transcript (py_drop_suffix (audioPath cfg output_dir 4 "opposition" "rebuttal") ++ ".txt")
         ("# OPPOSITION - REBUTTAL\\n\\nMotion: " ++ motion ++ "\\n\\n" ++ x4),
       FileEffect.audio (audioPath cfg output_dir 5 "proposition" "closing"),
       FileEffect.transcript (py_drop_suffix (audioPath cfg output_dir 5 "proposition" "closing") ++ ".txt")
         ("# PROPOSITION - CLOSING\\n\\nMotion: " ++ motion ++ "\\n\\n" ++ x5),
       FileEffect.audio (audioPath cfg output_dir 6 "opposition" "closing"),
       FileEffect.transcript (py_drop_suffix (audioPath cfg output_dir 6 "opposition" "closing") ++ ".txt")
         ("# OPPOSITION - CLOSING\\n\\nMotion: " ++ motion ++ "\\n\\n" ++ x6)] := by
  rw [generate_audio_complete cfg env synthOk motion output_dir content g
    x1 x2 x3 x4 x5 x6 hinit hsP hsO c1 c2 c3 c4 c5 c6, hic]
  rfl

/-- C9 witness: transcripts of the concrete complete run. -/
theorem generate_audio_transcripts_witness :
    (generate_audio cfg0 env0 synth_ok0 "the motion" "out" content0).effects =
      [FileEffect.audio (audioPath cfg0 "out" 1 "proposition" "opening"),
       FileEffect.transcript (py_drop_suffix (audioPath cfg0 "out" 1 "proposition" "opening") ++ ".txt")
         ("# PROPOSITION - OPENING\\n\\nMotion: " ++ "the motion" ++ "\\n\\n" ++ "po text"),
       FileEffect.audio (audioPath cfg0 "out" 2 "opposition" "opening"),
       FileEffect.transcript (py_drop_suffix (audioPath cfg0 "out" 2 "opposition" "opening") ++ ".txt")
         ("# OPPOSITION - OPENING\\n\\nMotion: " ++ "the motion" ++ "\\n\\n" ++ "oo text"),
       FileEffect.audio (audioPath cfg0 "out" 3 "proposition" "rebuttal"),
       FileEffect.transcript (py_drop_suffix (audioPath cfg0 "out" 3 "proposition" "rebuttal") ++ ".txt")
         ("# PROPOSITION - REBUTTAL\\n\\nMotion: " ++ "the motion" ++ "\\n\\n" ++ "pr text"),
       FileEffect.audio (audioPath cfg0 "out" 4 "opposition" "rebuttal"),
       FileEffect.transcript (py_drop_suffix (audioPath cfg0 "out" 4 "opposition" "rebuttal") ++ ".txt")
         ("# OPPOSITION - REBUTTAL\\n\\nMotion: " ++ "the motion" ++ "\\n\\n" ++ "orb text"),
       FileEffect.audio (audioPath cfg0 "out" 5 "proposition" "closing"),
       FileEffect.transcript (py_drop_suffix (audioPath cfg0 "out" 5 "proposition" "closing") ++ ".txt")
         ("# PROPOSITION - CLOSING\\n\\nMotion: " ++ "the motion" ++ "\\n\\n" ++ "pc text"),
       FileEffect.audio (audioPath cfg0 "out" 6 "opposition" "closing"),
       FileEffect.transcript (py_drop_suffix (audioPath cfg0 "out" 6 "opposition" "closing") ++ ".txt")
         ("# OPPOSITION - CLOSING\\n\\nMotion: " ++ "the motion" ++ "\\n\\n" ++ "oc text")] :=
  generate_audio_transcripts cfg0 env0 synth_ok0 "the motion" "out" content0 g0
    "po text" "oo text" "pr text" "orb text" "pc text" "oc text"
    rfl (fun _ _ => rfl) (fun _ _ => rfl) rfl rfl rfl rfl rfl rfl rfl

/-- C10: for any two content mappings that both contain all six stages, the
same configuration yields the identical list of artifact paths — the paths
depend only on the configuration and the fixed (order, side, phase)
metadata, never on the motion or the generated texts. -/
theorem generate_audio_paths_content_independent (cfg : Config) (env : Env)
    (synthOk : String → String → Bool) (motion motionB output_dir : String)
    (content contentB : List (String × String)) (g : AudioGenerator)
    (hinit : AudioGenerator.init cfg env = Except.ok g)
    (hsP : ∀ t p, (text_to_speech g synthOk t p "proposition").1 = Except.ok p)
    (hsO : ∀ t p, (text_to_speech g synthOk t p "opposition").1 = Except.ok p)
    (hc : ∀ s ∈ speechStages, (content.lookup s).isSome)
    (hcB : ∀ s ∈ speechStages, (contentB.lookup s).isSome) :
    (generate_audio cfg env synthOk motion output_dir content).files =
      (generate_audio cfg env synthOk motionB output_dir contentB).files := by
  obtain ⟨x1, c1⟩ := Option.isSome_iff_exists.mp (hc "proposition_opening" (by decide))
  obtain ⟨x2, c2⟩ := Option.isSome_iff_exists.mp (hc "opposition_opening" (by decide))
  obtain ⟨x3, c3⟩ := Option.isSome_iff_exists.mp (hc "proposition_rebuttal" (by decide))
  obtain ⟨x4, c4⟩ := Option.isSome_iff_exists.mp (hc "opposition_rebuttal" (by decide))
  obtain ⟨x5, c5⟩ := Option.isSome_iff_exists.mp (hc "proposition_closing" (by decide))
  obtain ⟨x6, c6⟩ := Option.isSome_iff_exists.mp (hc "opposition_closing" (by decide))
  obtain ⟨y1, d1⟩ := Option.isSome_iff_exists.mp (hcB "proposition_opening" (by decide))
  obtain ⟨y2, d2⟩ := Option.isSome_iff_exists.mp (hcB "opposition_opening" (by decide))
  obtain ⟨y3, d3⟩ := Option.isSome_iff_exists.mp (hcB "proposition_rebuttal" (by decide))
  obtain ⟨y4, d4⟩ := Option.isSome_iff_exists.mp (hcB "opposition_rebuttal" (by decide))
  obtain ⟨y5, d5⟩ := Option.isSome_iff_exists.mp (hcB "proposition_closing" (by decide))
  obtain ⟨y6, d6⟩ := Option.isSome_iff_exists.mp (hcB "opposition_closing" (by decide))
  rw [generate_audio_complete cfg env synthOk motion output_dir content g
    x1 x2 x3 x4 x5 x6 hinit hsP hsO c1 c2 c3 c4 c5 c6,
    generate_audio_complete cfg env synthOk motionB output_dir contentB g
    y1 y2 y3 y4 y5 y6 hinit hsP hsO d1 d2 d3 d4 d5 d6]

/-- C10 witness: two different contents and motions, identical path lists. -/
theorem generate_audio_paths_content_independent_witness :
    (generate_audio cfg0 env0 synth_ok0 "m" "out" content0).files =
      (generate_audio cfg0 env0 synth_ok0 "other motion" "out" content1).files :=
  generate_audio_paths_content_independent cfg0 env0 synth_ok0 "m" "other motion" "out"
    content0 content1 g0 rfl (fun _ _ => rfl) (fun _ _ => rfl) (by decide) (by decide)

/-! ### C7 -/

/-- C7: when the content mapping is missing some stage of the fixed speech
order (s being the first such stage), `generate_audio` over a working
provider fails with the `MissingContentError` naming exactly that stage,
raised when the loop reaches that stage's entry. -/
theorem generate_audio_missing_content (cfg : Config) (env : Env)
    (synthOk : String → String → Bool) (motion output_dir : String)
    (content : List (String × String)) (g : AudioGenerator) (s : String)
    (hinit : AudioGenerator.init cfg env = Except.ok g)
    (hsP : ∀ t p, (text_to_speech g synthOk t p "proposition").1 = Except.ok p)
    (hsO : ∀ t p, (text_to_speech g synthOk t p "opposition").1 = Except.ok p)
    (hfirst : speechStages.find? (fun st => (content.lookup st).isNone) = some s) :
    (generate_audio cfg env synthOk motion output_dir content).err =
      some (AudioError.missingContent s) := by
  have eP : ∀ t p, text_to_speech g synthOk t p "proposition" = (Except.ok p, [FileEffect.audio p]) :=
    fun t p => tts_ok_shape (hsP t p)
  have eO : ∀ t p, text_to_speech g synthOk t p "opposition" = (Except.ok p, [FileEffect.audio p]) :=
    fun t p => tts_ok_shape (hsO t p)
  rcases hm1 : content.lookup "proposition_opening" with _ | x1
  · simp only [speechStages, speech_order, List.map, List.find?, hm1, Option.isNone,
      Option.some.injEq] at hfirst
    subst hfirst
    simp [generate_audio, hinit, speech_order, audioStep, hm1]
  rcases hm2 : content.lookup "opposition_opening" with _ | x2
  · simp only [speechStages, speech_order, List.map, List.find?, hm1, hm2, Option.isNone,
      Option.some.injEq] at hfirst
    subst hfirst
    cases hic : cfg.include_transcript <;>
      simp [generate_audio, hinit, speech_order, audioStep, hm1, hm2, eP, eO, hic]
  rcases hm3 : content.lookup "proposition_rebuttal" with _ | x3
  · simp only [speechStages, speech_order, List.map, List.find?, hm1, hm2, hm3, Option.isNone,
      Option.some.injEq] at hfirst
    subst hfirst
    cases hic : cfg.include_transcript <;>
      simp [generate_audio, hinit, speech_order, audioStep, hm1, hm2, hm3, eP, eO, hic]
  rcases hm4 : content.lookup "opposition_rebuttal" with _ | x4
  · simp only [speechStages, speech_order, List.map, List.find?, hm1, hm2, hm3, hm4,
      Option.isNone, Option.some.injEq] at hfirst
    subst hfirst
    cases hic : cfg.include_transcript <;>
      simp [generate_audio, hinit, speech_order, audioStep, hm1, hm2, hm3, hm4, eP, eO, hic]
  rcases hm5 : content.lookup "proposition_closing" with _ | x5
  · simp only [speechStages, speech_order, List.map, List.find?, hm1, hm2, hm3, hm4, hm5,
      Option.isNone, Option.some.injEq] at hfirst
    subst hfirst
    cases hic : cfg.include_transcript <;>
      simp [generate_audio, hinit, speech_order, audioStep, hm1, hm2, hm3, hm4, hm5, eP, eO, hic]
  rcases hm6 : content.lookup "opposition_closing" with _ | x6
  · simp only [speechStages, speech_order, List.map, List.find?, hm1, hm2, hm3, hm4, hm5, hm6,
      Option.isNone, Option.some.injEq] at hfirst
    subst hfirst
    cases hic : cfg.include_transcript <;>
      simp [generate_audio, hinit, speech_order, audioStep, hm1, hm2, hm3, hm4, hm5, hm6, eP, eO, hic]
  · simp only [speechStages, speech_order, List.map, List.find?, hm1, hm2, hm3, hm4, hm5, hm6,
      Option.isNone] at hfirst
    exact absurd hfirst (by simp)

/-- C7 witness: content missing `opposition_rebuttal`. -/
theorem generate_audio_missing_content_witness :
    (generate_audio cfg0 env0 synth_ok0 "m" "out"
      [("proposition_opening", "a"), ("opposition_opening", "b"),
       ("proposition_rebuttal", "c"), ("proposition_closing", "e"),
       ("opposition_closing", "f")]).err =
      some (AudioError.missingContent "opposition_rebuttal") :=
  generate_audio_missing_content cfg0 env0 synth_ok0 "m" "out"
    [("proposition_opening", "a"), ("opposition_opening", "b"),
     ("proposition_rebuttal", "c"), ("proposition_closing", "e"),
     ("opposition_closing", "f")] g0 "opposition_rebuttal"
    rfl (fun _ _ => rfl) (fun _ _ => rfl) (by decide)

/-! ### C5 -/

/-- C5: synthesis with a voice identifier absent from the voice
configuration fails — with the unknown-voice `KeyError` (the spec's
`ConfigurationError`) under the openai and elevenlabs backends, or with the
unsupported-provider `ValueError` otherwise — and writes no file. -/
theorem text_to_speech_unknown_voice (g : AudioGenerator) (synthOk : String → String → Bool)
    (text path voice : String)
    (hv : g.config.voices.lookup voice = none) :
    ∃ e, text_to_speech g synthOk text path voice = (Except.error e, []) ∧
      (e = TTSError.unknownVoice voice ∨ e = TTSError.unsupported g.tts_provider) := by
  by_cases h1 : g.tts_provider = "openai"
  · exact ⟨TTSError.unknownVoice voice,
      by simp [text_to_speech, h1, openai_tts, hv], Or.inl rfl⟩
  by_cases h2 : g.tts_provider = "elevenlabs"
  · exact ⟨TTSError.unknownVoice voice,
      by simp [text_to_speech, h1, h2, elevenlabs_tts, hv], Or.inl rfl⟩
  exact ⟨TTSError.unsupported g.tts_provider,
    by simp [text_to_speech, h1, h2], Or.inr rfl⟩

/-- C5 witness: the voice "narrator" is not configured. -/
theorem text_to_speech_unknown_voice_witness :
    ∃ e, text_to_speech g0 synth_ok0 "hello" "out/x.mp3" "narrator" = (Except.error e, []) ∧
      (e = TTSError.unknownVoice "narrator" ∨ e = TTSError.unsupported g0.tts_provider) :=
  text_to_speech_unknown_voice g0 synth_ok0 "hello" "out/x.mp3" "narrator" rfl

/-! ### C6 (corrected) -/

/-- C6 counterexample: with the unsupported backend name "speechify"
selected (and neither SDK nor credentials available), `AudioGenerator`
construction succeeds — it does not fail at construction time as the claim
requires — and the error surfaces only lazily, on the first synthesis
call. -/
theorem audio_init_not_failfast_counterexample :
    AudioGenerator.init cfg0 envUnknown = Except.ok ⟨cfg0, "speechify"⟩ ∧
    text_to_speech ⟨cfg0, "speechify"⟩ synth_ok0 "text" "out/f.mp3" "proposition" =
      (Except.error (TTSError.unsupported "speechify"), []) :=
  ⟨rfl, rfl⟩

/-- C6 amended: construction fails fast exactly for the checks
`__init__` performs — missing OpenAI credentials under the `openai`
backend, missing SDK under the `elevenlabs` backend.  For any other
selected provider name, construction succeeds and the
unsupported-provider error is raised lazily on the first synthesis call
(which writes nothing). -/
theorem audio_init_failfast_amended (cfg : Config) (env : Env) :
    ((env.tts_provider.getD "openai" = "openai" ∧ env.openai_ok = false) →
      AudioGenerator.init cfg env = Except.error InitError.openaiCredentials) ∧
    ((env.tts_provider.getD "openai" = "elevenlabs" ∧ env.elevenlabs_sdk = false) →
      AudioGenerator.init cfg env = Except.error InitError.elevenlabsSdkMissing) ∧
    (env.tts_provider.getD "openai" ≠ "openai" →
     env.tts_provider.getD "openai" ≠ "elevenlabs" →
      AudioGenerator.init cfg env = Except.ok ⟨cfg, env.tts_provider.getD "openai"⟩ ∧
      ∀ synthOk text path voice,
        text_to_speech ⟨cfg, env.tts_provider.getD "openai"⟩ synthOk text path voice =
          (Except.error (TTSError.unsupported (env.tts_provider.getD "openai")), [])) := by
  refine ⟨?_, ?_, ?_⟩
  · rintro ⟨h1, h2⟩
    simp [AudioGenerator.init, h1, h2]
  · rintro ⟨h1, h2⟩
    simp [AudioGenerator.init, h1, h2]
  · intro h1 h2
    constructor
    · simp [AudioGenerator.init, h1, h2]
    · intro synthOk text path voice
      simp [text_to_speech, h1, h2]

/-- C6 amended witness: fail-fast for openai without credentials; lazy
success for the unsupported name "speechify". -/
theorem audio_init_failfast_amended_witness :
    AudioGenerator.init cfg0
      { tts_provider := some "openai", openai_ok := false, elevenlabs_sdk := false } =
      Except.error InitError.openaiCredentials ∧
    AudioGenerator.init cfg0 envUnknown = Except.ok ⟨cfg0, "speechify"⟩ :=
  ⟨(audio_init_failfast_amended cfg0
      { tts_provider := some "openai", openai_ok := false, elevenlabs_sdk := false }).1
      ⟨rfl, rfl⟩,
   ((audio_init_failfast_amended cfg0 envUnknown).2.2 (by decide) (by decide)).1⟩

/-! ### C8 -/

/-- C8: when the audio-processing library is unavailable, `normalize_audio`
never raises and is the identity on the path with no file writes; in
particular running it again on the returned path gives the same result as
the first run — applying it twice returns the same path as applying it
once. -/
theorem normalize_audio_unavailable_noop (process : String → Option String) (p : String) :
    normalize_audio false process p = Except.ok (p, []) ∧
    (normalize_audio false process p).bind (fun r => normalize_audio false process r.1) =
      normalize_audio false process p := by
  constructor <;> simp [normalize_audio, Except.bind]

/-! ### C4 -/

/-- C4: if the prompt-template mapping lacks the key for stage `s` (and the
stages before `s` in generation order can be generated), `generate_debate`
raises the `MissingPromptError` naming `s`; the pipeline never reaches
audio generation, and the stored content holds exactly the stages strictly
before `s` — neither `s` nor any later stage is stored. -/
theorem generate_debate_missing_prompt (prompts : List (String × List Tok))
    (llm : String → Option String) (motion : String) (s : String)
    (cfg : Config) (env : Env) (synthOk : String → String → Bool) (output_dir : String)
    (hs : s ∈ textOrder)
    (hmiss : prompts.lookup s = none)
    (hearlier : ∀ s' ∈ textOrder.takeWhile (fun x => x != s), ∀ ctx, ∃ t,
      generate_speech prompts llm motion s' ctx = Except.ok t) :
    (run_pipeline prompts llm motion cfg env synthOk output_dir).2 = none ∧
    (generate_debate prompts llm motion).err = some (SpeechError.missingPrompt s) ∧
    (generate_debate prompts llm motion).content.map Prod.fst =
      textOrder.takeWhile (fun x => x != s) := by
  simp only [textOrder, List.mem_cons, List.not_mem_nil, or_false] at hs
  rcases hs with rfl | rfl | rfl | rfl | rfl | rfl
  · have hsp : generate_speech prompts llm motion "proposition_opening" [] =
        Except.error (SpeechError.missingPrompt "proposition_opening") := by
      simp [generate_speech, hmiss]
    have herr : (generate_debate prompts llm motion).err =
        some (SpeechError.missingPrompt "proposition_opening") := by
      simp [generate_debate, runStage, mkCtx, hsp]
    have hcont : (generate_debate prompts llm motion).content.map Prod.fst = [] := by
      simp [generate_debate, runStage, mkCtx, hsp]
    exact ⟨by simp [run_pipeline, herr], herr, by rw [hcont]; rfl⟩
  · obtain ⟨t1, e1⟩ := hearlier "proposition_opening" (by decide) []
    have hsp : generate_speech prompts llm motion "opposition_opening" [] =
        Except.error (SpeechError.missingPrompt "opposition_opening") := by
      simp [generate_speech, hmiss]
    have herr : (generate_debate prompts llm motion).err =
        some (SpeechError.missingPrompt "opposition_opening") := by
      simp [generate_debate, runStage, mkCtx, e1, hsp]
    have hcont : (generate_debate prompts llm motion).content.map Prod.fst =
        ["proposition_opening"] := by
      simp [generate_debate, runStage, mkCtx, e1, hsp]
    exact ⟨by simp [run_pipeline, herr], herr, by rw [hcont]; rfl⟩
  · obtain ⟨t1, e1⟩ := hearlier "proposition_opening" (by decide) []
    obtain ⟨t2, e2⟩ := hearlier "opposition_opening" (by decide) []
    have hsp : generate_speech prompts llm motion "proposition_rebuttal"
        [("opposition_opening", t2)] =
        Except.error (SpeechError.missingPrompt "proposition_rebuttal") := by
      simp [generate_speech, hmiss]
    have herr : (generate_debate prompts llm motion).err =
        some (SpeechError.missingPrompt "proposition_rebuttal") := by
      simp [generate_debate, runStage, mkCtx, List.lookup, e1, e2, hsp]
    have hcont : (generate_debate prompts llm motion).content.map Prod.fst =
        ["proposition_opening", "opposition_opening"] := by
      simp [generate_debate, runStage, mkCtx, List.lookup, e1, e2, hsp]
    exact ⟨by simp [run_pipeline, herr], herr, by rw [hcont]; rfl⟩
  · obtain ⟨t1, e1⟩ := hearlier "proposition_opening" (by decide) []
    obtain ⟨t2, e2⟩ := hearlier "opposition_opening" (by decide) []
    obtain ⟨t3, e3⟩ := hearlier "proposition_rebuttal" (by decide) [("opposition_opening", t2)]
    have hsp : generate_speech prompts llm motion "opposition_rebuttal"
        [("proposition_opening", t1)] =
        Except.error (SpeechError.missingPrompt "opposition_rebuttal") := by
      simp [generate_speech, hmiss]
    have herr : (generate_debate prompts llm motion).err =
        some (SpeechError.missingPrompt "opposition_rebuttal") := by
      simp [generate_debate, runStage, mkCtx, List.lookup, e1, e2, e3, hsp]
    have hcont : (generate_debate prompts llm motion).content.map Prod.fst =
        ["proposition_opening", "opposition_opening", "proposition_rebuttal"] := by
      simp [generate_debate, runStage, mkCtx, List.lookup, e1, e2, e3, hsp]
    exact ⟨by simp [run_pipeline, herr], herr, by rw [hcont]; rfl⟩
  · obtain ⟨t1, e1⟩ := hearlier "proposition_opening" (by decide) []
    obtain ⟨t2, e2⟩ := hearlier "opposition_opening" (by decide) []
    obtain ⟨t3, e3⟩ := hearlier "proposition_rebuttal" (by decide) [("opposition_opening", t2)]
    obtain ⟨t4, e4⟩ := hearlier "opposition_rebuttal" (by decide) [("proposition_opening", t1)]
    have hsp : generate_speech prompts llm motion "proposition_closing"
        [("proposition_opening", t1), ("opposition_opening", t2),
         ("proposition_rebuttal", t3), ("opposition_rebuttal", t4)] =
        Except.error (SpeechError.missingPrompt "proposition_closing") := by
      simp [generate_speech, hmiss]
    have herr : (generate_debate prompts llm motion).err =
        some (SpeechError.missingPrompt "proposition_closing") := by
      simp [generate_debate, runStage, mkCtx, List.lookup, e1, e2, e3, e4, hsp]
    have hcont : (generate_debate prompts llm motion).content.map Prod.fst =
        ["proposition_opening", "opposition_opening",
         "proposition_rebuttal", "opposition_rebuttal"] := by
      simp [generate_debate, runStage, mkCtx, List.lookup, e1, e2, e3, e4, hsp]
    exact ⟨by simp [run_pipeline, herr], herr, by rw [hcont]; rfl⟩
  · obtain ⟨t1, e1⟩ := hearlier "proposition_opening" (by decide) []
    obtain ⟨t2, e2⟩ := hearlier "opposition_opening" (by decide) []
    obtain ⟨t3, e3⟩ := hearlier "proposition_rebuttal" (by decide) [("opposition_opening", t2)]
    obtain ⟨t4, e4⟩ := hearlier "opposition_rebuttal" (by decide) [("proposition_opening", t1)]
    obtain ⟨t5, e5⟩ := hearlier "proposition_closing" (by decide)
      [("proposition_opening", t1), ("opposition_opening", t2),
       ("proposition_rebuttal", t3), ("opposition_rebuttal", t4)]
    have hsp : generate_speech prompts llm motion "opposition_closing"
        [("proposition_opening", t1), ("opposition_opening", t2),
         ("proposition_rebuttal", t3), ("opposition_rebuttal", t4)] =
        Except.error (SpeechError.missingPrompt "opposition_closing") := by
      simp [generate_speech, hmiss]
    have herr : (generate_debate prompts llm motion).err =
        some (SpeechError.missingPrompt "opposition_closing") := by
      simp [generate_debate, runStage, mkCtx, List.lookup, e1, e2, e3, e4, e5, hsp]
    have hcont : (generate_debate prompts llm motion).content.map Prod.fst =
        ["proposition_opening", "opposition_opening",
         "proposition_rebuttal", "opposition_rebuttal", "proposition_closing"] := by
      simp [generate_debate, runStage, mkCtx, List.lookup, e1, e2, e3, e4, e5, hsp]
    exact ⟨by simp [run_pipeline, herr], herr, by rw [hcont]; rfl⟩

/-- C4 witness: the spec's missing-template scenario — no template for
`opposition_closing`. -/
theorem generate_debate_missing_prompt_witness :
    (run_pipeline prompts_missing llm0 "m" cfg0 env0 synth_ok0 "out").2 = none ∧
    (generate_debate prompts_missing llm0 "m").err =
      some (SpeechError.missingPrompt "opposition_closing") ∧
    (generate_debate prompts_missing llm0 "m").content.map Prod.fst =
      textOrder.takeWhile (fun x => x != "opposition_closing") :=
  generate_debate_missing_prompt prompts_missing llm0 "m" "opposition_closing"
    cfg0 env0 synth_ok0 "out" (by decide) (by decide)
    (by
      intro s' hs' ctx
      rw [show textOrder.takeWhile (fun x => x != "opposition_closing") =
        ["proposition_opening", "opposition_opening", "proposition_rebuttal",
         "opposition_rebuttal", "proposition_closing"] from rfl] at hs'
      fin_cases hs' <;> exact ⟨"generated speech", rfl⟩)

end OxfordDebate
